import Mathlib

/-!
Shallow embedding of `src/main.py` (molt-agent-supreme): phase resolution,
nexus-binding construction and attestation derivation, together with
executable models of the three hash functions the source invokes
(`hashlib.sha256`, `hashlib.sha3_256`, `hashlib.blake2b` with
`digest_size=16`).  Bytes are `List Nat` (each entry a value 0..255) and
machine words are `Nat` reduced modulo `2^32` or `2^64` where the source's
word width matters.
-/

/-! Byte and word helpers -/

def U64M : Nat := 18446744073709551615

def u64 (x : Nat) : Nat := x % 18446744073709551616

def u32 (x : Nat) : Nat := x % 4294967296

def rotr32 (x n : Nat) : Nat := u32 ((x >>> n) ||| (x <<< (32 - n)))

def rotl64 (x n : Nat) : Nat := u64 ((x <<< n) ||| (x >>> (64 - n)))

def rotr64 (x n : Nat) : Nat := u64 ((x >>> n) ||| (x <<< (64 - n)))

def byteAt (m : List Nat) (i : Nat) : Nat := m.getD i 0

/-- Big-endian 8-byte encoding of a 64-bit value, as in Python's
`int.to_bytes(8, "big")` for values below `2^64`. -/
def beBytes8 (n : Nat) : List Nat :=
  [(n >>> 56) % 256, (n >>> 48) % 256, (n >>> 40) % 256, (n >>> 32) % 256,
   (n >>> 24) % 256, (n >>> 16) % 256, (n >>> 8) % 256, n % 256]

/-- Big-endian 4-byte encoding of a 32-bit word. -/
def beBytes4 (n : Nat) : List Nat :=
  [(n >>> 24) % 256, (n >>> 16) % 256, (n >>> 8) % 256, n % 256]

/-- Little-endian 8-byte encoding of a 64-bit word. -/
def leBytes8 (n : Nat) : List Nat :=
  [n % 256, (n >>> 8) % 256, (n >>> 16) % 256, (n >>> 24) % 256,
   (n >>> 32) % 256, (n >>> 40) % 256, (n >>> 48) % 256, (n >>> 56) % 256]

/-- Little-endian 64-bit word read from bytes `m[j..j+7]`. -/
def leWordAt (m : List Nat) (j : Nat) : Nat :=
  byteAt m j ||| (byteAt m (j+1) <<< 8) ||| (byteAt m (j+2) <<< 16) |||
  (byteAt m (j+3) <<< 24) ||| (byteAt m (j+4) <<< 32) ||| (byteAt m (j+5) <<< 40) |||
  (byteAt m (j+6) <<< 48) ||| (byteAt m (j+7) <<< 56)

/-- Big-endian 32-bit word read from bytes `m[j..j+3]`. -/
def beWordAt (m : List Nat) (j : Nat) : Nat :=
  (byteAt m j <<< 24) ||| (byteAt m (j+1) <<< 16) ||| (byteAt m (j+2) <<< 8) ||| byteAt m (j+3)

/-- Hex digit value, as accepted by Python's `bytes.fromhex`. -/
def hexDigitVal? (c : Char) : Option Nat :=
  if '0' ≤ c ∧ c ≤ '9' then some (c.toNat - 48)
  else if 'a' ≤ c ∧ c ≤ 'f' then some (c.toNat - 87)
  else if 'A' ≤ c ∧ c ≤ 'F' then some (c.toNat - 55)
  else none

/-- Decode a whitespace-free hex string two digits at a time; a trailing odd
digit or a non-hex character yields `none`, as `bytes.fromhex` raises
`ValueError` there. -/
def hexPairs : List Char → Option (List Nat)
  | [] => some []
  | [_] => none
  | c1 :: c2 :: rest =>
    match hexDigitVal? c1, hexDigitVal? c2, hexPairs rest with
    | some hi, some lo, some tl => some ((16 * hi + lo) :: tl)
    | _, _, _ => none

/-- Model of `bytes.fromhex` on the whitespace-free literals of the source. -/
def hexDecode (s : String) : Option (List Nat) := hexPairs s.toList

/-! SHA-256 (`hashlib.sha256`) -/

def sha256K : List Nat :=
  [1116352408, 1899447441, 3049323471, 3921009573, 961987163, 1508970993,
   2453635748, 2870763221, 3624381080, 310598401, 607225278, 1426881987,
   1925078388, 2162078206, 2614888103, 3248222580, 3835390401, 4022224774,
   264347078, 604807628, 770255983, 1249150122, 1555081692, 1996064986,
   2554220882, 2821834349, 2952996808, 3210313671, 3336571891, 3584528711,
   113926993, 338241895, 666307205, 773529912, 1294757372, 1396182291,
   1695183700, 1986661051, 2177026350, 2456956037, 2730485921, 2820302411,
   3259730800, 3345764771, 3516065817, 3600352804, 4094571909, 275423344,
   430227734, 506948616, 659060556, 883997877, 958139571, 1322822218,
   1537002063, 1747873779, 1955562222, 2024104815, 2227730452, 2361852424,
   2428436474, 2756734187, 3204031479, 3329325298]

def sha256H0 : List Nat :=
  [1779033703, 3144134277, 1013904242, 2773480762,
   1359893119, 2600822924, 528734635, 1541459225]

def sha256Pad (m : List Nat) : List Nat :=
  m ++ [128] ++ List.replicate ((120 - (m.length + 1) % 64) % 64) 0 ++ beBytes8 (8 * m.length)

def sha256Extend : Nat → List Nat → List Nat
  | 0, w => w
  | n+1, w =>
    let t := w.length
    let w15 := w.getD (t-15) 0
    let w2 := w.getD (t-2) 0
    let s0 := rotr32 w15 7 ^^^ rotr32 w15 18 ^^^ (w15 >>> 3)
    let s1 := rotr32 w2 17 ^^^ rotr32 w2 19 ^^^ (w2 >>> 10)
    sha256Extend n (w ++ [u32 (w.getD (t-16) 0 + s0 + w.getD (t-7) 0 + s1)])

def sha256W (block : List Nat) : List Nat :=
  sha256Extend 48 ((List.range 16).map fun i => beWordAt block (4*i))

def sha256Round (k wt : Nat) (s : List Nat) : List Nat :=
  let a := s.getD 0 0
  let b := s.getD 1 0
  let c := s.getD 2 0
  let d := s.getD 3 0
  let e := s.getD 4 0
  let f := s.getD 5 0
  let g := s.getD 6 0
  let h := s.getD 7 0
  let S1 := rotr32 e 6 ^^^ rotr32 e 11 ^^^ rotr32 e 25
  let ch := (e &&& f) ^^^ ((e ^^^ 4294967295) &&& g)
  let t1 := u32 (h + S1 + ch + k + wt)
  let S0 := rotr32 a 2 ^^^ rotr32 a 13 ^^^ rotr32 a 22
  let maj := (a &&& b) ^^^ (a &&& c) ^^^ (b &&& c)
  let t2 := u32 (S0 + maj)
  [u32 (t1 + t2), a, b, c, u32 (d + t1), e, f, g]

def sha256Rounds : Nat → Nat → List Nat → List Nat → List Nat
  | 0, _, _, s => s
  | n+1, t, w, s => sha256Rounds n (t+1) w (sha256Round (sha256K.getD t 0) (w.getD t 0) s)

def sha256Compress (h block : List Nat) : List Nat :=
  let s := sha256Rounds 64 0 (sha256W block) h
  (List.range 8).map fun i => u32 (h.getD i 0 + s.getD i 0)

def sha256Blocks : Nat → List Nat → List Nat → List Nat
  | 0, _, h => h
  | n+1, m, h => sha256Blocks n (m.drop 64) (sha256Compress h (m.take 64))

def bytesOfWords32 (ws : List Nat) : List Nat :=
  ws.foldr (fun w acc => beBytes4 w ++ acc) []

/-- SHA-256 digest (32 bytes) of a byte sequence, as in `hashlib.sha256`. -/
def sha256 (m : List Nat) : List Nat :=
  let p := sha256Pad m
  bytesOfWords32 (sha256Blocks (p.length / 64) p sha256H0)

/-! SHA3-256 (`hashlib.sha3_256`): Keccak-f[1600], rate 136, domain suffix 0x06 -/

def keccakRC : List Nat :=
  [1, 32898, 9223372036854808714, 9223372039002292224,
   32907, 2147483649, 9223372039002292353, 9223372036854808585,
   138, 136, 2147516425, 2147483658,
   2147516555, 9223372036854775947, 9223372036854808713, 9223372036854808579,
   9223372036854808578, 9223372036854775936, 32778, 9223372039002259466,
   9223372039002292353, 9223372036854808704, 2147483649, 9223372039002292232]

def keccakRho : Nat → Nat
  | 1 => 1
  | 2 => 62
  | 3 => 28
  | 4 => 27
  | 5 => 36
  | 6 => 44
  | 7 => 6
  | 8 => 55
  | 9 => 20
  | 10 => 3
  | 11 => 10
  | 12 => 43
  | 13 => 25
  | 14 => 39
  | 15 => 41
  | 16 => 45
  | 17 => 15
  | 18 => 21
  | 19 => 8
  | 20 => 18
  | 21 => 2
  | 22 => 61
  | 23 => 56
  | 24 => 14
  | _ => 0

def laneAt (st : List Nat) (x y : Nat) : Nat := st.getD (x % 5 + 5 * (y % 5)) 0

def keccakTheta (a : List Nat) : List Nat :=
  let c := (List.range 5).map fun x =>
    laneAt a x 0 ^^^ laneAt a x 1 ^^^ laneAt a x 2 ^^^ laneAt a x 3 ^^^ laneAt a x 4
  let d := (List.range 5).map fun x => c.getD ((x+4) % 5) 0 ^^^ rotl64 (c.getD ((x+1) % 5) 0) 1
  (List.range 25).map fun i => a.getD i 0 ^^^ d.getD (i % 5) 0

def keccakRhoPi (a : List Nat) : List Nat :=
  (List.range 25).map fun i =>
    let x := i % 5
    let y := i / 5
    let sx := (x + 3*y) % 5
    rotl64 (laneAt a sx x) (keccakRho (sx + 5*x))

def keccakChi (b : List Nat) : List Nat :=
  (List.range 25).map fun i =>
    let x := i % 5
    let y := i / 5
    laneAt b x y ^^^ ((laneAt b (x+1) y ^^^ U64M) &&& laneAt b (x+2) y)

def keccakRound (a : List Nat) (rc : Nat) : List Nat :=
  let b := keccakChi (keccakRhoPi (keccakTheta a))
  b.set 0 (b.getD 0 0 ^^^ rc)

def keccakF (a : List Nat) : List Nat := keccakRC.foldl keccakRound a

def sha3Absorb (st block : List Nat) : List Nat :=
  (List.range 25).map fun i => st.getD i 0 ^^^ (if i < 17 then leWordAt block (8*i) else 0)

def sha3Pad (m : List Nat) : List Nat :=
  let q := 136 - m.length % 136
  if q = 1 then m ++ [134]
  else m ++ [6] ++ List.replicate (q - 2) 0 ++ [128]

def sha3Blocks : Nat → List Nat → List Nat → List Nat
  | 0, _, st => st
  | n+1, m, st => sha3Blocks n (m.drop 136) (keccakF (sha3Absorb st (m.take 136)))

/-- SHA3-256 digest (32 bytes) of a byte sequence, as in `hashlib.sha3_256`. -/
def sha3_256 (m : List Nat) : List Nat :=
  let p := sha3Pad m
  let st := sha3Blocks (p.length / 136) p (List.replicate 25 0)
  leBytes8 (st.getD 0 0) ++ leBytes8 (st.getD 1 0) ++ leBytes8 (st.getD 2 0) ++ leBytes8 (st.getD 3 0)

/-! BLAKE2b with a 16-byte digest and no key (`hashlib.blake2b(data, digest_size=16)`) -/

def blake2bIV : List Nat :=
  [7640891576956012808, 13503953896175478587, 4354685564936845355,
   11912009170470909681, 5840696475078001361, 11170449401992604703,
   2270897969802886507, 6620516959819538809]

def blakeSigma : List (List Nat) :=
  [[0, 1, 2, 3, 4, 5, 6, 7, 8, 9, 10, 11, 12, 13, 14, 15],
   [14, 10, 4, 8, 9, 15, 13, 6, 1, 12, 0, 2, 11, 7, 5, 3],
   [11, 8, 12, 0, 5, 2, 15, 13, 10, 14, 3, 6, 7, 1, 9, 4],
   [7, 9, 3, 1, 13, 12, 11, 14, 2, 6, 5, 10, 4, 0, 15, 8],
   [9, 0, 5, 7, 2, 4, 10, 15, 14, 1, 11, 12, 6, 8, 3, 13],
   [2, 12, 6, 10, 0, 11, 8, 3, 4, 13, 7, 5, 15, 14, 1, 9],
   [12, 5, 1, 15, 14, 13, 4, 10, 0, 7, 6, 3, 9, 2, 8, 11],
   [13, 11, 7, 14, 12, 1, 3, 9, 5, 0, 15, 4, 8, 6, 2, 10],
   [6, 15, 14, 9, 11, 3, 0, 8, 12, 2, 13, 7, 1, 4, 10, 5],
   [10, 2, 8, 4, 7, 6, 1, 5, 15, 11, 9, 14, 3, 12, 13, 0]]

def blakeG (v : List Nat) (a b c d x y : Nat) : List Nat :=
  let va := u64 (v.getD a 0 + v.getD b 0 + x)
  let vd := rotr64 (v.getD d 0 ^^^ va) 32
  let vc := u64 (v.getD c 0 + vd)
  let vb := rotr64 (v.getD b 0 ^^^ vc) 24
  let va2 := u64 (va + vb + y)
  let vd2 := rotr64 (vd ^^^ va2) 16
  let vc2 := u64 (vc + vd2)
  let vb2 := rotr64 (vb ^^^ vc2) 63
  ((((v.set a va2).set b vb2).set c vc2).set d vd2)

def blakeRound (m v : List Nat) (r : Nat) : List Nat :=
  let s := blakeSigma.getD (r % 10) []
  let mi := fun k => m.getD (s.getD k 0) 0
  let v1 := blakeG v 0 4 8 12 (mi 0) (mi 1)
  let v2 := blakeG v1 1 5 9 13 (mi 2) (mi 3)
  let v3 := blakeG v2 2 6 10 14 (mi 4) (mi 5)
  let v4 := blakeG v3 3 7 11 15 (mi 6) (mi 7)
  let v5 := blakeG v4 0 5 10 15 (mi 8) (mi 9)
  let v6 := blakeG v5 1 6 11 12 (mi 10) (mi 11)
  let v7 := blakeG v6 2 7 8 13 (mi 12) (mi 13)
  blakeG v7 3 4 9 14 (mi 14) (mi 15)

def blakeRounds : Nat → Nat → List Nat → List Nat → List Nat
  | 0, _, _, v => v
  | n+1, r, m, v => blakeRounds n (r+1) m (blakeRound m v r)

def blakeCompress (h block : List Nat) (t : Nat) (f : Bool) : List Nat :=
  let m := (List.range 16).map fun i => leWordAt block (8*i)
  let v0 := h ++ blake2bIV
  let v1 := v0.set 12 (v0.getD 12 0 ^^^ u64 t)
  let v2 := v1.set 13 (v1.getD 13 0 ^^^ (t / 18446744073709551616))
  let v3 := if f then v2.set 14 (v2.getD 14 0 ^^^ U64M) else v2
  let v := blakeRounds 12 0 m v3
  (List.range 8).map fun i => h.getD i 0 ^^^ v.getD i 0 ^^^ v.getD (i+8) 0

/-- Initial state for no key and digest size 16: IV with parameter word
0x0101kknn = 0x01010010 folded into the first lane. -/
def blake2b16Init : List Nat := blake2bIV.set 0 (blake2bIV.getD 0 0 ^^^ 16842768)

def blake2bLoop : Nat → List Nat → Nat → List Nat → List Nat
  | 0, _, _, h => h
  | n+1, m, done, h =>
    if m.length ≤ 128 then
      blakeCompress h (m ++ List.replicate (128 - m.length) 0) (done + m.length) true
    else
      blake2bLoop n (m.drop 128) (done + 128) (blakeCompress h (m.take 128) (done + 128) false)

/-- BLAKE2b digest with digest size 16 and no key, as in
`hashlib.blake2b(data, digest_size=16)`. -/
def blake2b16 (m : List Nat) : List Nat :=
  let h := blake2bLoop (m.length / 128 + 1) m 0 blake2b16Init
  leBytes8 (h.getD 0 0) ++ leBytes8 (h.getD 1 0)

/-! Data model of `src/main.py` -/

/-- `MoltPhase(IntEnum)` with declaration values 0..4. -/
inductive MoltPhase where
  | DORMANT
  | NEXUS_BIND
  | DELTA_RESOLVE
  | ANCHOR_COMMIT
  | SUPREME_FINAL
deriving DecidableEq

/-- The `IntEnum` value of a stage (declaration order: Dormant=0 .. SupremeFinal=4). -/
def MoltPhase.toNat : MoltPhase → Nat
  | .DORMANT => 0
  | .NEXUS_BIND => 1
  | .DELTA_RESOLVE => 2
  | .ANCHOR_COMMIT => 3
  | .SUPREME_FINAL => 4

/-- `ChannelKind(IntEnum)` with `auto()` values. -/
inductive ChannelKind where
  | ALPHA
  | BETA
  | GAMMA
  | OMEGA
deriving DecidableEq

/-- Frozen dataclass `NexusBinding`. -/
structure NexusBinding where
  channel : ChannelKind
  phase : MoltPhase
  depth : Int
  anchor : List Nat
  epoch_ts : Nat
deriving DecidableEq

/-- Frozen dataclass `DeltaAttestation`; the `Decimal` scale is modelled as a
rational number. -/
structure DeltaAttestation where
  binding_id : List Nat
  scale : ℚ
  bps : Nat
  magic : Nat
deriving DecidableEq

/-! Module constants -/

def NEXUS_EPOCH_TS : Nat := 1738364127

/-- The hex literal given to `bytes.fromhex` for `PHASE_ANCHOR_HEX`.  It has
39 digits (odd), so the decode fails. -/
def phaseAnchorHexStr : String := "a7f2c9e4b1d8063f5e8a0c2b4d6f8e1a3c5b7d9"

def channelSaltHexStr : String := "3b8e1f4a7c2d9e6b0f5a8c1d4e7b2a9f6c3e8d"

/-- Result of `bytes.fromhex(phaseAnchorHexStr)` (`none`: `ValueError`). -/
def PHASE_ANCHOR_HEX? : Option (List Nat) := hexDecode phaseAnchorHexStr

/-- The 19 bytes of `CHANNEL_SALT` (this decode succeeds; see
`channelSalt_decodes`). -/
def CHANNEL_SALT : List Nat :=
  [59, 142, 31, 74, 124, 45, 158, 107, 15, 90, 140, 29, 78, 123, 42, 159, 108, 62, 141]

/-- `Decimal("2847196.0382")` as a rational. -/
def DELTA_SCALE : ℚ := 28471960382 / 10000

def RESOLUTION_BPS : Nat := 17

def MAX_PHASE_DEPTH : Int := 93

def SUPREME_VERSION : Nat × Nat × Nat := (2, 11, 47)

def BINDING_MAGIC : Nat := 0x8F3E2A1C9D7B4E6F

/-! Program operations -/

/-- `MoltAgentSupreme.resolve_phase` (depth ladder; `self` is unused). -/
def resolve_phase (depth : Int) : MoltPhase :=
  if depth ≤ 0 then .DORMANT
  else if depth < 30 then .NEXUS_BIND
  else if depth < 60 then .DELTA_RESOLVE
  else if depth < MAX_PHASE_DEPTH then .ANCHOR_COMMIT
  else .SUPREME_FINAL

/-- The state `__slots__` of a constructed agent. -/
structure MoltAgentSupreme where
  binding : NexusBinding
  attestation : DeltaAttestation
  resolved_phase : MoltPhase

/-- The binding `MoltAgentSupreme.__init__` would store, as a function of the
decoded phase-anchor bytes. -/
def initBinding (anchor : List Nat) : NexusBinding :=
  { channel := .OMEGA
    phase := .NEXUS_BIND
    depth := MAX_PHASE_DEPTH
    anchor := anchor
    epoch_ts := NEXUS_EPOCH_TS }

/-- The 16-byte binding identifier `MoltAgentSupreme.__init__` would compute:
`sha256(CHANNEL_SALT + PHASE_ANCHOR_HEX + NEXUS_EPOCH_TS.to_bytes(8, "big")).digest()[:16]`. -/
def initBindingId (anchor : List Nat) : List Nat :=
  (sha256 (CHANNEL_SALT ++ anchor ++ beBytes8 NEXUS_EPOCH_TS)).take 16

/-- The attestation `MoltAgentSupreme.__init__` would store alongside the
binding, as a function of the decoded phase-anchor bytes. -/
def initAttestation (anchor : List Nat) : DeltaAttestation :=
  { binding_id := initBindingId anchor
    scale := DELTA_SCALE
    bps := RESOLUTION_BPS
    magic := BINDING_MAGIC }

/-- `MoltAgentSupreme.__init__`: evaluating the module constant
`PHASE_ANCHOR_HEX` is the only fallible step (its 39-digit hex literal fails
to decode), so the whole construction is an `Option`. -/
def agentInit? : Option MoltAgentSupreme :=
  PHASE_ANCHOR_HEX?.map fun anchor =>
    { binding := initBinding anchor
      attestation := initAttestation anchor
      resolved_phase := .SUPREME_FINAL }

/-- `MoltAgentSupremeConcrete.__init__`: the base construction, then
`self._resolved_phase = self.resolve_phase(MAX_PHASE_DEPTH)`. -/
def agentConcrete? : Option MoltAgentSupreme :=
  agentInit?.map fun a => { a with resolved_phase := resolve_phase MAX_PHASE_DEPTH }

/-- `MoltAgentSupreme.anchor_hash`:
`sha3_256(binding.anchor + attestation.binding_id + binding.epoch_ts.to_bytes(8, "big"))`. -/
def anchor_hash (b : NexusBinding) (att : DeltaAttestation) : List Nat :=
  sha3_256 (b.anchor ++ att.binding_id ++ beBytes8 b.epoch_ts)

/-- `create_supreme_binding()`. -/
def create_supreme_binding : NexusBinding :=
  { channel := .GAMMA
    phase := .ANCHOR_COMMIT
    depth := MAX_PHASE_DEPTH
    anchor := (sha256 CHANNEL_SALT).take 32
    epoch_ts := NEXUS_EPOCH_TS + 8847 }

/-- `attestation_from_seed(seed)`.  The `None` branch reads 8 bytes from
`secrets.token_bytes`; that randomness is passed in explicitly as
`randomBytes`, so the model covers every draw the generator could make. -/
def attestation_from_seed (seed : Option (List Nat)) (randomBytes : List Nat) : DeltaAttestation :=
  let raw := match seed with
    | some s => s
    | none => CHANNEL_SALT ++ randomBytes
  { binding_id := blake2b16 raw
    scale := DELTA_SCALE
    bps := RESOLUTION_BPS
    magic := BINDING_MAGIC }

/-! Helper lemmas -/

set_option maxRecDepth 1000000

set_option maxHeartbeats 4000000

/-- The channel-salt literal decodes to the 19 bytes of `CHANNEL_SALT`. -/
lemma channelSalt_decodes : hexDecode channelSaltHexStr = some CHANNEL_SALT := by decide

/-- The phase-anchor literal has 39 hex digits, so `bytes.fromhex` fails on it. -/
lemma phaseAnchor_decode_fails : PHASE_ANCHOR_HEX? = none := by decide

lemma agentInit_eq_none : agentInit? = none := by
  unfold agentInit?
  rw [phaseAnchor_decode_fails]
  rfl

lemma agentConcrete_eq_none : agentConcrete? = none := by
  unfold agentConcrete?
  rw [agentInit_eq_none]
  rfl

lemma sha3_256_length (m : List Nat) : (sha3_256 m).length = 32 := by
  simp [sha3_256, leBytes8]

lemma blake2b16_length (m : List Nat) : (blake2b16 m).length = 16 := by
  simp [blake2b16, leBytes8]

lemma sha256Compress_length (h block : List Nat) : (sha256Compress h block).length = 8 := by
  simp [sha256Compress]

lemma sha256Blocks_length (n : Nat) :
    ∀ m h : List Nat, h.length = 8 → (sha256Blocks n m h).length = 8 := by
  induction n with
  | zero => intro m h hh; simpa [sha256Blocks] using hh
  | succ k ih =>
    intro m h hh
    simpa [sha256Blocks] using ih (m.drop 64) _ (sha256Compress_length h (m.take 64))

lemma bytesOfWords32_length (ws : List Nat) : (bytesOfWords32 ws).length = 4 * ws.length := by
  induction ws with
  | nil => rfl
  | cons w t ih =>
    simp [bytesOfWords32, beBytes4, List.foldr_cons] at ih ⊢
    omega

lemma sha256_length (m : List Nat) : (sha256 m).length = 32 := by
  have h8 := sha256Blocks_length ((sha256Pad m).length / 64) (sha256Pad m) sha256H0 rfl
  simp [sha256, bytesOfWords32_length, h8]

/-! Claim theorems -/

/-- C1: `resolve_phase` realises the five-band ladder on all integers:
`depth ≤ 0` is Dormant (so depth 0 is Dormant, not NexusBind),
`0 < depth < 30` NexusBind, `30 ≤ depth < 60` DeltaResolve,
`60 ≤ depth < MAX_PHASE_DEPTH = 93` AnchorCommit, `depth ≥ 93` SupremeFinal;
the quoted boundary values come out as stated. -/
theorem c1_resolve_phase_ladder :
    (∀ d : Int,
      (resolve_phase d = MoltPhase.DORMANT ↔ d ≤ 0) ∧
      (resolve_phase d = MoltPhase.NEXUS_BIND ↔ 0 < d ∧ d < 30) ∧
      (resolve_phase d = MoltPhase.DELTA_RESOLVE ↔ 30 ≤ d ∧ d < 60) ∧
      (resolve_phase d = MoltPhase.ANCHOR_COMMIT ↔ 60 ≤ d ∧ d < MAX_PHASE_DEPTH) ∧
      (resolve_phase d = MoltPhase.SUPREME_FINAL ↔ MAX_PHASE_DEPTH ≤ d)) ∧
    MAX_PHASE_DEPTH = 93 ∧
    resolve_phase 0 = MoltPhase.DORMANT ∧
    resolve_phase (-7) = MoltPhase.DORMANT ∧
    resolve_phase 29 = MoltPhase.NEXUS_BIND ∧
    resolve_phase 30 = MoltPhase.DELTA_RESOLVE ∧
    resolve_phase 59 = MoltPhase.DELTA_RESOLVE ∧
    resolve_phase 60 = MoltPhase.ANCHOR_COMMIT ∧
    resolve_phase 92 = MoltPhase.ANCHOR_COMMIT ∧
    resolve_phase 93 = MoltPhase.SUPREME_FINAL := by
  refine ⟨fun d => ?_, by decide, by decide, by decide, by decide, by decide, by decide,
    by decide, by decide, by decide⟩
  unfold resolve_phase MAX_PHASE_DEPTH
  refine ⟨?_, ?_, ?_, ?_, ?_⟩ <;> split_ifs <;> simp_all <;> omega

/-- C1 witness: the band characterisation applied at depth 15 plus a pinned
boundary value. -/
theorem c1_resolve_phase_ladder_witness :
    resolve_phase 15 = MoltPhase.NEXUS_BIND ∧ resolve_phase 93 = MoltPhase.SUPREME_FINAL :=
  ⟨(c1_resolve_phase_ladder.1 15).2.1.mpr (by decide),
   c1_resolve_phase_ladder.2.2.2.2.2.2.2.2.2⟩

/-- C2 counterexample: `create_supreme_binding()` is a program constructor,
yet its record's phase (AnchorCommit) differs from `resolve_phase` of its own
depth (93 ↦ SupremeFinal), refuting the claimed invariant. -/
theorem c2_counterexample_phase_mismatch :
    ¬ (create_supreme_binding.phase = resolve_phase create_supreme_binding.depth) := by
  decide

/-- C2 amended: no constructor enforces phase = resolve_phase(depth); both
constructed records carry a fixed phase (NexusBind for the default builder,
whatever the anchor decodes to; AnchorCommit for the alternate) that differs
from `resolve_phase` of their own depth field, which is SupremeFinal at
depth 93. -/
theorem c2_constructed_phase_diverges :
    (∀ anchor : List Nat,
      (initBinding anchor).phase = MoltPhase.NEXUS_BIND ∧
      resolve_phase (initBinding anchor).depth = MoltPhase.SUPREME_FINAL ∧
      (initBinding anchor).phase ≠ resolve_phase (initBinding anchor).depth) ∧
    create_supreme_binding.phase = MoltPhase.ANCHOR_COMMIT ∧
    resolve_phase create_supreme_binding.depth = MoltPhase.SUPREME_FINAL ∧
    create_supreme_binding.phase ≠ resolve_phase create_supreme_binding.depth := by
  exact ⟨fun anchor =>
    ⟨rfl,
     by show resolve_phase MAX_PHASE_DEPTH = MoltPhase.SUPREME_FINAL; decide,
     by show MoltPhase.NEXUS_BIND ≠ resolve_phase MAX_PHASE_DEPTH; decide⟩,
    rfl, by decide, by decide⟩

/-- C2 amended witness: the divergence observed at the concrete anchor bytes
of the channel salt and at the alternate binding. -/
theorem c2_constructed_phase_diverges_witness :
    (initBinding CHANNEL_SALT).phase = MoltPhase.NEXUS_BIND ∧
    create_supreme_binding.phase ≠ resolve_phase create_supreme_binding.depth :=
  ⟨(c2_constructed_phase_diverges.1 CHANNEL_SALT).1,
   c2_constructed_phase_diverges.2.2.2⟩

/-- C3 (code bug): the default construction never completes, because decoding
the 39-digit phase-anchor literal fails before any record is built; had an
anchor value been available, the stored phase would be the fixed NexusBind
with the fixed channel, depth, anchor and timestamp, while
`resolve_phase MAX_PHASE_DEPTH` is SupremeFinal. -/
theorem c3_default_construction_fails :
    agentInit? = none ∧ agentConcrete? = none ∧
    (∀ anchor : List Nat,
      (initBinding anchor).phase = MoltPhase.NEXUS_BIND ∧
      (initBinding anchor).channel = ChannelKind.OMEGA ∧
      (initBinding anchor).depth = MAX_PHASE_DEPTH ∧
      (initBinding anchor).anchor = anchor ∧
      (initBinding anchor).epoch_ts = NEXUS_EPOCH_TS) ∧
    resolve_phase MAX_PHASE_DEPTH = MoltPhase.SUPREME_FINAL :=
  ⟨agentInit_eq_none, agentConcrete_eq_none,
   fun _ => ⟨rfl, rfl, rfl, rfl, rfl⟩, by decide⟩

/-- C4 (code bug): the identifier recipe (SHA-256 of salt ++ anchor ++
big-endian timestamp, truncated to 16 bytes, stored with the fixed scale,
basis points and magic) is what `__init__` would compute, but the phase-anchor
constant fails to decode, so the attestation is never constructed. -/
theorem c4_binding_id_never_computed :
    PHASE_ANCHOR_HEX? = none ∧ agentInit? = none ∧
    (∀ anchor : List Nat,
      (initAttestation anchor).binding_id =
        (sha256 (CHANNEL_SALT ++ anchor ++ beBytes8 NEXUS_EPOCH_TS)).take 16 ∧
      ((initAttestation anchor).binding_id).length = 16 ∧
      (initAttestation anchor).scale = DELTA_SCALE ∧
      (initAttestation anchor).bps = RESOLUTION_BPS ∧
      (initAttestation anchor).magic = BINDING_MAGIC) := by
  refine ⟨phaseAnchor_decode_fails, agentInit_eq_none, fun anchor => ⟨rfl, ?_, rfl, rfl, rfl⟩⟩
  show ((sha256 (CHANNEL_SALT ++ anchor ++ beBytes8 NEXUS_EPOCH_TS)).take 16).length = 16
  simp [List.length_take, sha256_length]

/-- C5: `anchor_hash` is the SHA3-256 digest of exactly
anchor ++ binding_id ++ 8-byte big-endian timestamp, for every binding record
and attestation; its output always has exactly 32 bytes; on the
program-constructible pair (alternate binding, empty-seed attestation) it
equals the pinned reference digest. -/
theorem c5_anchor_hash_spec :
    (∀ (b : NexusBinding) (att : DeltaAttestation),
      anchor_hash b att = sha3_256 (b.anchor ++ att.binding_id ++ beBytes8 b.epoch_ts) ∧
      (anchor_hash b att).length = 32) ∧
    anchor_hash create_supreme_binding (attestation_from_seed (some []) []) =
      [155, 44, 8, 86, 233, 117, 87, 3, 131, 241, 98, 154, 179, 245, 94, 168,
       100, 47, 43, 109, 168, 42, 172, 146, 132, 254, 225, 154, 72, 73, 123, 172] :=
  ⟨fun b att => ⟨rfl, sha3_256_length _⟩, by decide⟩

/-- C6: with a provided seed the attestation's identifier is the 16-byte
BLAKE2b hash of the seed bytes alone and the scale, bps and magic fields are
the fixed constants; the random source is ignored entirely on the seeded path
(so two calls with the same seed agree), any seed length including the empty
one is accepted, and the empty-seed and salt-seed identifiers equal the
pinned reference digests. -/
theorem c6_attestation_from_seed_spec :
    (∀ seed r r2 : List Nat,
      attestation_from_seed (some seed) r =
        { binding_id := blake2b16 seed
          scale := DELTA_SCALE
          bps := RESOLUTION_BPS
          magic := BINDING_MAGIC } ∧
      attestation_from_seed (some seed) r = attestation_from_seed (some seed) r2 ∧
      ((attestation_from_seed (some seed) r).binding_id).length = 16) ∧
    (attestation_from_seed (some []) []).binding_id =
      [202, 230, 105, 65, 217, 239, 189, 64, 78, 77, 136, 117, 142, 166, 118, 112] ∧
    (attestation_from_seed (some CHANNEL_SALT) []).binding_id =
      [100, 97, 192, 177, 162, 92, 188, 230, 104, 17, 138, 28, 226, 155, 232, 49] :=
  ⟨fun seed r r2 => ⟨rfl, rfl, blake2b16_length seed⟩, by decide, by decide⟩

/-- C7: the alternate factory returns the fixed GAMMA channel (distinct from
the default builder's OMEGA), the fixed AnchorCommit phase, the same maximum
depth, an anchor equal to the first 32 bytes of SHA-256 of the channel salt
alone (pinned concretely), and the base epoch shifted by the constant 8847. -/
theorem c7_create_supreme_binding_spec :
    create_supreme_binding.channel = ChannelKind.GAMMA ∧
    (∀ anchor : List Nat, create_supreme_binding.channel ≠ (initBinding anchor).channel) ∧
    create_supreme_binding.phase = MoltPhase.ANCHOR_COMMIT ∧
    create_supreme_binding.depth = MAX_PHASE_DEPTH ∧
    create_supreme_binding.anchor = (sha256 CHANNEL_SALT).take 32 ∧
    create_supreme_binding.anchor =
      [230, 20, 136, 177, 6, 63, 96, 148, 179, 249, 25, 167, 43, 180, 174, 188,
       7, 231, 5, 172, 40, 115, 39, 10, 171, 244, 207, 205, 165, 220, 171, 88] ∧
    create_supreme_binding.epoch_ts = NEXUS_EPOCH_TS + 8847 :=
  ⟨rfl,
   fun anchor => by show ChannelKind.GAMMA ≠ ChannelKind.OMEGA; decide,
   rfl, rfl, rfl, by decide, rfl⟩

/-- C7 witness: the channel distinction at the concrete default anchor bytes. -/
theorem c7_create_supreme_binding_spec_witness :
    create_supreme_binding.channel ≠ (initBinding CHANNEL_SALT).channel :=
  c7_create_supreme_binding_spec.2.1 CHANNEL_SALT

/-- C8 (code bug): `anchor_hash` is deterministic — equal records and
attestations give equal 32-byte digests — but the claimed fixed-constant
round trip never runs: the default construction fails on the odd-length
phase-anchor literal, so no process-start digest exists to be reproduced. -/
theorem c8_anchor_hash_deterministic_but_no_roundtrip :
    (∀ (b b2 : NexusBinding) (a a2 : DeltaAttestation),
      b = b2 → a = a2 → anchor_hash b a = anchor_hash b2 a2) ∧
    agentInit? = none :=
  ⟨fun b b2 a a2 hb ha => by rw [hb, ha], agentInit_eq_none⟩

/-- C8 witness: determinism instantiated at the alternate binding and the
empty-seed attestation. -/
theorem c8_anchor_hash_deterministic_witness :
    anchor_hash create_supreme_binding (attestation_from_seed (some []) []) =
      anchor_hash create_supreme_binding (attestation_from_seed (some []) []) :=
  c8_anchor_hash_deterministic_but_no_roundtrip.1
    create_supreme_binding create_supreme_binding
    (attestation_from_seed (some []) []) (attestation_from_seed (some []) []) rfl rfl

/-- C9: `resolve_phase` is monotone non-decreasing in depth under the declared
stage order (Dormant=0 < NexusBind=1 < DeltaResolve=2 < AnchorCommit=3 <
SupremeFinal=4). -/
theorem c9_resolve_phase_monotone (d1 d2 : Int) (h : d1 ≤ d2) :
    (resolve_phase d1).toNat ≤ (resolve_phase d2).toNat := by
  unfold resolve_phase
  split_ifs <;> simp_all [MoltPhase.toNat] <;> omega

/-- C9 witness: monotonicity applied at the concrete pair (0, 93). -/
theorem c9_resolve_phase_monotone_witness :
    (0 : Int) ≤ 93 ∧ (resolve_phase 0).toNat ≤ (resolve_phase 93).toNat :=
  ⟨by decide, c9_resolve_phase_monotone 0 93 (by decide)⟩

/-- C10: every attestation the program can produce has a 16-byte identifier —
the default initialisation path for whatever anchor bytes the constant would
supply, and `attestation_from_seed` for any seed (present, empty or absent)
and any draw of the random source. -/
theorem c10_binding_ids_are_16_bytes :
    (∀ anchor : List Nat, ((initAttestation anchor).binding_id).length = 16) ∧
    (∀ (seed : Option (List Nat)) (r : List Nat),
      ((attestation_from_seed seed r).binding_id).length = 16) := by
  constructor
  · intro anchor
    show ((sha256 (CHANNEL_SALT ++ anchor ++ beBytes8 NEXUS_EPOCH_TS)).take 16).length = 16
    simp [List.length_take, sha256_length]
  · intro seed r
    exact blake2b16_length _
